import Mathlib

/-!
Verification of the stdio-to-HTTP bridge `mcp-stdio-proxy.py`.

The development shallowly embeds the program: configuration reading and the
startup credential check, the per-line bridge loop (strip, correlation-id
extraction via JSON decoding, HTTP forwarding with session-token header,
response classification, error-unit synthesis), and the debug log writer.
The downstream HTTP world (response status/headers/body, or a raised
transport failure) is an oracle input supplied per iteration.
-/

namespace McpProxy

/-- Python JSON values as produced by `json.loads`.  Floating point numbers
(and the non-standard `NaN`/`Infinity` accepted by Python) are kept as their
raw source tokens: the bridge never computes with them, it only stores and
re-emits the extracted value. -/
inductive JVal where
  | null : JVal
  | bool (b : Bool) : JVal
  | num (n : Int) : JVal
  | float (tok : String) : JVal
  | str (s : String) : JVal
  | arr (xs : List JVal) : JVal
  | obj (kvs : List (String × JVal)) : JVal
deriving Repr

/-- Characters removed by Python `str.strip()` (ASCII whitespace range). -/
def pySpace (c : Char) : Bool :=
  c = ' ' ∨ c = '\t' ∨ c = '\n' ∨ c = '\x0d' ∨ c = '\x0b' ∨ c = '\x0c'

/-- Python `str.strip()`: drop leading and trailing whitespace. -/
def pyStrip (s : String) : String :=
  ⟨(((s.toList.dropWhile pySpace).reverse.dropWhile pySpace).reverse)⟩

/-- ASCII lowering of one character. -/
def pyLowerChar (c : Char) : Char :=
  if 'A' ≤ c ∧ c ≤ 'Z' then Char.ofNat (c.toNat + 32) else c

/-- Python `str.lower()` (ASCII part, all the program compares against). -/
def pyLower (s : String) : String := ⟨s.toList.map pyLowerChar⟩

/-- Digit run of Python `int()`: digits with single underscores strictly
between digits.  `acc` is the value of the digits already consumed. -/
def pyIntDigits : Nat → List Char → Option Nat
  | acc, [] => some acc
  | acc, c :: cs =>
    if c.isDigit then pyIntDigits (10 * acc + (c.toNat - 48)) cs
    else if c = '_' then
      match cs with
      | [] => none
      | d :: ds =>
        if d.isDigit then pyIntDigits (10 * acc + (d.toNat - 48)) ds
        else none
    else none

/-- Python `int(s)` on a string: optional surrounding whitespace, optional
sign, then a digit run (underscore grouping allowed).  `none` models the
`ValueError` that `int()` raises on anything else. -/
def pyInt (s : String) : Option Int :=
  let core := ((s.toList.dropWhile pySpace).reverse.dropWhile pySpace).reverse
  let (neg, digits) :=
    match core with
    | '-' :: rest => (true, rest)
    | '+' :: rest => (false, rest)
    | rest => (false, rest)
  match digits with
  | [] => none
  | d :: _ =>
    if d.isDigit then
      match pyIntDigits 0 digits with
      | some n => some (if neg then -(n : Int) else (n : Int))
      | none => none
    else none

/-! ### JSON parser (the behaviour of `json.loads` with default settings) -/

/-- JSON whitespace (the only characters `json.loads` skips between tokens). -/
def jsonWs (c : Char) : Bool :=
  c = ' ' ∨ c = '\t' ∨ c = '\n' ∨ c = '\x0d'

def skipWs (cs : List Char) : List Char := cs.dropWhile jsonWs

/-- Hex digit value, `none` if not a hex digit. -/
def hexVal (c : Char) : Option Nat :=
  if '0' ≤ c ∧ c ≤ '9' then some (c.toNat - 48)
  else if 'a' ≤ c ∧ c ≤ 'f' then some (c.toNat - 87)
  else if 'A' ≤ c ∧ c ≤ 'F' then some (c.toNat - 55)
  else none

/-- Parse the rest of a JSON string literal (after the opening quote),
handling backslash escapes; strict mode rejects raw control characters. -/
def parseStringRest : List Char → List Char → Option (String × List Char)
  | _, [] => none
  | acc, c :: cs =>
    if c = '"' then some (⟨acc.reverse⟩, cs)
    else if c = '\\' then
      match cs with
      | [] => none
      | e :: es =>
        if e = '"' then parseStringRest ('"' :: acc) es
        else if e = '\\' then parseStringRest ('\\' :: acc) es
        else if e = '/' then parseStringRest ('/' :: acc) es
        else if e = 'b' then parseStringRest ('\x08' :: acc) es
        else if e = 'f' then parseStringRest ('\x0c' :: acc) es
        else if e = 'n' then parseStringRest ('\n' :: acc) es
        else if e = 'r' then parseStringRest ('\x0d' :: acc) es
        else if e = 't' then parseStringRest ('\t' :: acc) es
        else if e = 'u' then
          match es with
          | h1 :: h2 :: h3 :: h4 :: rest =>
            match hexVal h1, hexVal h2, hexVal h3, hexVal h4 with
            | some a, some b, some c3, some d =>
              parseStringRest (Char.ofNat (((a * 16 + b) * 16 + c3) * 16 + d) :: acc) rest
            | _, _, _, _ => none
          | _ => none
        else none
    else if c.toNat < 32 then none
    else parseStringRest (c :: acc) cs

/-- Maximal run of ASCII digits, returning the digits and the rest. -/
def takeDigits : List Char → (List Char × List Char)
  | [] => ([], [])
  | c :: cs =>
    if c.isDigit then
      let (ds, rest) := takeDigits cs
      (c :: ds, rest)
    else ([], c :: cs)

/-- Numeric value of a list of ASCII digits. -/
def digitsToNat (ds : List Char) : Nat :=
  ds.foldl (fun acc c => 10 * acc + (c.toNat - 48)) 0

/-- Parse a JSON number after an optional leading minus, following the
regular expression used by Python: `(0|[1-9]\d*)(\.\d+)?([eE][+-]?\d+)?`.
An integer-only match yields `JVal.num`; fraction or exponent parts yield a
`JVal.float` carrying the raw token. -/
def parseNumber (neg : Bool) (cs : List Char) : Option (JVal × List Char) :=
  let intPart : Option (List Char × List Char) :=
    match cs with
    | '0' :: rest => some (['0'], rest)
    | c :: _ =>
      if c.isDigit then
        let (ds, rest) := takeDigits cs
        some (ds, rest)
      else none
    | [] => none
  match intPart with
  | none => none
  | some (ds, rest) =>
    let (fracPart, rest2) :=
      match rest with
      | '.' :: more =>
        match takeDigits more with
        | ([], _) => (none, rest)
        | (fds, r) => (some fds, r)
      | _ => (none, rest)
    let (expPart, rest3) :=
      match rest2 with
      | e :: more =>
        if e = 'e' ∨ e = 'E' then
          let (esign, more2) :=
            match more with
            | '+' :: m => (['+'], m)
            | '-' :: m => (['-'], m)
            | m => ([], m)
          match takeDigits more2 with
          | ([], _) => (none, rest2)
          | (eds, r) => (some (e :: (esign ++ eds)), r)
        else (none, rest2)
      | [] => (none, rest2)
    match fracPart, expPart with
    | none, none =>
      let n : Int := digitsToNat ds
      some (JVal.num (if neg then -n else n), rest3)
    | _, _ =>
      let tok : List Char :=
        (if neg then ['-'] else []) ++ ds ++
        (match fracPart with | some f => '.' :: f | none => []) ++
        (match expPart with | some e => e | none => [])
      some (JVal.float ⟨tok⟩, rest3)

mutual

/-- Parse one JSON value starting at a non-whitespace position. -/
def parseVal : Nat → List Char → Option (JVal × List Char)
  | 0, _ => none
  | _ + 1, [] => none
  | fuel + 1, c :: cs =>
    if c = 'n' then
      match cs with
      | 'u' :: 'l' :: 'l' :: rest => some (JVal.null, rest)
      | _ => none
    else if c = 't' then
      match cs with
      | 'r' :: 'u' :: 'e' :: rest => some (JVal.bool true, rest)
      | _ => none
    else if c = 'f' then
      match cs with
      | 'a' :: 'l' :: 's' :: 'e' :: rest => some (JVal.bool false, rest)
      | _ => none
    else if c = 'N' then
      match cs with
      | 'a' :: 'N' :: rest => some (JVal.float "NaN", rest)
      | _ => none
    else if c = 'I' then
      match cs with
      | 'n' :: 'f' :: 'i' :: 'n' :: 'i' :: 't' :: 'y' :: rest =>
        some (JVal.float "Infinity", rest)
      | _ => none
    else if c = '"' then
      match parseStringRest [] cs with
      | some (s, rest) => some (JVal.str s, rest)
      | none => none
    else if c = '[' then
      match skipWs cs with
      | ']' :: rest => some (JVal.arr [], rest)
      | cs2 => parseArrItems fuel cs2 []
    else if c = '\x7b' then
      match skipWs cs with
      | '\x7d' :: rest => some (JVal.obj [], rest)
      | cs2 => parseObjItems fuel cs2 []
    else if c = '-' then
      match cs with
      | 'I' :: 'n' :: 'f' :: 'i' :: 'n' :: 'i' :: 't' :: 'y' :: rest =>
        some (JVal.float "-Infinity", rest)
      | _ => parseNumber true cs
    else if c.isDigit then
      parseNumber false (c :: cs)
    else none

/-- Parse the items of a JSON array, positioned at the start of a value. -/
def parseArrItems : Nat → List Char → List JVal → Option (JVal × List Char)
  | 0, _, _ => none
  | fuel + 1, cs, acc =>
    match parseVal fuel cs with
    | none => none
    | some (v, rest) =>
      match skipWs rest with
      | ',' :: rest2 => parseArrItems fuel (skipWs rest2) (v :: acc)
      | ']' :: rest2 => some (JVal.arr (v :: acc).reverse, rest2)
      | _ => none

/-- Parse the members of a JSON object, positioned at the start of a key. -/
def parseObjItems : Nat → List Char → List (String × JVal) →
    Option (JVal × List Char)
  | 0, _, _ => none
  | fuel + 1, cs, acc =>
    match cs with
    | '"' :: cs2 =>
      match parseStringRest [] cs2 with
      | none => none
      | some (k, rest) =>
        match skipWs rest with
        | ':' :: rest2 =>
          match parseVal fuel (skipWs rest2) with
          | none => none
          | some (v, rest3) =>
            match skipWs rest3 with
            | ',' :: rest4 => parseObjItems fuel (skipWs rest4) ((k, v) :: acc)
            | '\x7d' :: rest4 => some (JVal.obj ((k, v) :: acc).reverse, rest4)
            | _ => none
        | _ => none
    | _ => none

end

/-- `json.loads`: parse a complete document, allowing surrounding
whitespace; `none` models a raised `json.JSONDecodeError`. -/
def jsonLoads (s : String) : Option JVal :=
  match parseVal (s.length + 1) (skipWs s.toList) with
  | some (v, rest) => if skipWs rest = [] then some v else none
  | none => none

/-- Python `dict.get(k)` on the decoded object: the value of the last
binding of `k`, or `None` when absent (Python cannot tell an explicit JSON
`null` from a missing key here, so both yield `JVal.null`). -/
def pyDictGet (kvs : List (String × JVal)) (k : String) : JVal :=
  match kvs.reverse.find? (fun p => p.1 = k) with
  | some p => p.2
  | none => JVal.null

/-! ### The bridge loop -/

/-- One unit written to standard output: either the downstream body printed
verbatim, or a synthesized JSON-RPC error object
`\x7b"jsonrpc": "2.0", "id": id, "error": \x7b"code": code, "message": message\x7d\x7d`. -/
inductive OutUnit where
  | raw (s : String) : OutUnit
  | err (id : JVal) (code : Int) (message : String) : OutUnit
deriving Repr

/-- One outbound HTTP POST: its body and the optional `Mcp-Session-Id`
request header (the fixed `Content-Type`/`Accept` headers never vary). -/
structure Request where
  body : String
  sessionHeader : Option String
deriving Repr, DecidableEq

/-- The downstream world's reaction to one POST, supplied as an oracle:
either an HTTP response (status, optional `Mcp-Session-Id` response header,
body text), or one of the exception classes the program catches. -/
inductive HttpOutcome where
  | response (status : Nat) (sessionHeader : Option String) (body : String) : HttpOutcome
  | timeout : HttpOutcome
  | connError (msg : String) : HttpOutcome
  | otherExc (msg : String) : HttpOutcome
deriving Repr, DecidableEq

/-- Correlation-id extraction (source lines 76–81):
`request_id = None; try: request_id = json.loads(line).get("id") except
JSONDecodeError: pass`.  A decode failure is caught and leaves the id
`None`; a document that decodes to a non-object reaches `.get` on a value
without that attribute, an `AttributeError` no handler catches — `none`
models that crash. -/
def extractRequestId (line : String) : Option JVal :=
  match jsonLoads line with
  | none => some JVal.null
  | some (JVal.obj kvs) => some (pyDictGet kvs "id")
  | some _ => none

/-- The `Mcp-Session-Id` request header attached for a held token
(source lines 85–87): `if mcp_session_id:` — Python truthiness, so an
empty-string token attaches nothing, like an unset one. -/
def attachHeader : Option String → Option String
  | none => none
  | some s => if s = "" then none else some s

/-- Result of processing one input line. -/
inductive StepOut where
  | skip : StepOut
  | crashed : StepOut
  | called (req : Request) (out : List OutUnit) (newSt : Option String) : StepOut
deriving Repr

/-- The forwarding half of an iteration (source lines 85–155): build the
request, let the oracle decide the outcome, update the session token from
the response header when present (before status or body are looked at),
then classify: status ≥ 400 → synthesized error with the HTTP status and
body in the message; success with empty body → nothing; success with
non-empty body → the body verbatim; `Timeout`/`ConnectionError`/other
exception → the corresponding synthesized error. -/
def forwardLine (st : Option String) (line : String) (reqId : JVal)
    (oc : HttpOutcome) : StepOut :=
  let req : Request := ⟨line, attachHeader st⟩
  match oc with
  | .response status hdr body =>
    let newSt := match hdr with
      | some v => some v
      | none => st
    if 400 ≤ status then
      .called req
        [.err reqId (-32000) ("HTTP " ++ toString status ++ ": " ++ body)] newSt
    else if body = "" then
      .called req [] newSt
    else
      .called req [.raw body] newSt
  | .timeout =>
    .called req [.err reqId (-32000) "Request timed out"] st
  | .connError _ =>
    .called req
      [.err reqId (-32000) "Connection error: Is the WhatsApp MCP server running?"] st
  | .otherExc msg =>
    .called req [.err reqId (-32000) msg] st

/-- One iteration of the bridge loop on a line read from standard input
(source lines 61–155): strip it, discard it when empty, extract the
correlation id (crashing on non-object JSON), and forward. -/
def procLine (st : Option String) (rawLine : String) (oc : HttpOutcome) :
    StepOut :=
  let line := pyStrip rawLine
  if line = "" then .skip
  else
    match extractRequestId line with
    | none => .crashed
    | some reqId => forwardLine st line reqId oc

/-- Observable trace of a run of the loop: each POST paired with the session
token held when it was issued, everything printed to standard output, whether
the process died of an uncaught exception, and the final token. -/
structure RunResult where
  requests : List (Option String × Request)
  outputs : List OutUnit
  crashed : Bool
  finalSt : Option String
deriving Repr

/-- The bridge loop over a finite input stream; the list ending is
end-of-file (`readline` returning `""`), on which the loop breaks and the
process exits cleanly.  An uncaught exception abandons the rest of the
input. -/
def runLoop (st : Option String) : List (String × HttpOutcome) → RunResult
  | [] => ⟨[], [], false, st⟩
  | (rawLine, oc) :: rest =>
    match procLine st rawLine oc with
    | .skip => runLoop st rest
    | .crashed => ⟨[], [], true, st⟩
    | .called req out newSt =>
      let r := runLoop newSt rest
      ⟨(st, req) :: r.requests, out ++ r.outputs, r.crashed, r.finalSt⟩

/-! ### Startup and the whole process -/

/-- The environment variables the program reads. -/
structure Env where
  apiKey : Option String
  host : Option String
  port : Option String
  timeout : Option String
  debug : Option String
deriving Repr, DecidableEq

/-- What startup (source lines 21–39) does before the loop. -/
inductive StartupResult where
  | crash : StartupResult
  | exitError (u : OutUnit) : StartupResult
  | proceed (timeoutVal : Int) (debug : Bool) (url : String) : StartupResult
deriving Repr

/-- Startup: read the configuration in source order.  `int(MCP_TIMEOUT)` is
evaluated at line 24, before the credential check at line 27, and raises an
uncaught `ValueError` on a malformed value; then `if not API_KEY:` (false
for a missing *or empty* key by Python truthiness) prints one error unit
and exits with status 1; otherwise the URL embeds the key and the loop is
entered. -/
def startup (env : Env) : StartupResult :=
  let host := env.host.getD "localhost"
  let port := env.port.getD "8080"
  match pyInt (env.timeout.getD "30") with
  | none => .crash
  | some t =>
    let dl := pyLower (env.debug.getD "")
    let debug := (dl == "1") || (dl == "true") || (dl == "yes")
    match env.apiKey with
    | none =>
      .exitError (.err JVal.null (-32600) "MCP_API_KEY environment variable is required")
    | some k =>
      if k = "" then
        .exitError (.err JVal.null (-32600) "MCP_API_KEY environment variable is required")
      else
        .proceed t debug ("http://" ++ host ++ ":" ++ port ++ "/mcp/" ++ k)

/-- Observable trace of the whole process: output units, POSTs issued,
whether it exited with status 0, and whether it died of an uncaught
exception (traceback on stderr, non-zero status). -/
structure ProgResult where
  outputs : List OutUnit
  requests : List (Option String × Request)
  exitZero : Bool
  crashed : Bool
deriving Repr

/-- The whole process on a given environment and input stream.  A startup
crash reads no input and prints nothing; a missing/empty credential prints
exactly one error unit and exits with status 1 before reading input;
otherwise the loop runs from an unset session token. -/
def program (env : Env) (inputs : List (String × HttpOutcome)) : ProgResult :=
  match startup env with
  | .crash => ⟨[], [], false, true⟩
  | .exitError u => ⟨[u], [], false, false⟩
  | .proceed _ _ _ =>
    let r := runLoop none inputs
    ⟨r.outputs, r.requests, !r.crashed, r.crashed⟩

/-! ### The debug log -/

/-- `def log(msg)` (source lines 43–47): appends one line to the log file
when debugging is enabled, nothing otherwise.  The timestamp prefix is
irrelevant to the properties below and elided; the returned list is the
lines appended. -/
def log (debug : Bool) (msg : String) : List String :=
  if debug then [msg] else []

/-- The message logged by the `ConnectionError` handler (source line 141):
`log(f"Connection error: \x7be\x7d")`, the exception text verbatim. -/
def connectionErrorLogMsg (e : String) : String := "Connection error: " ++ e

/-! ### Structural lemmas about one iteration -/

/-- Once the forwarding stage is reached, the iteration always completes
with a POST having been issued (every branch of `forwardLine` returns
`.called`). -/
theorem forwardLine_called (st : Option String) (line : String) (rid : JVal)
    (oc : HttpOutcome) :
    ∃ req out newSt, forwardLine st line rid oc = .called req out newSt := by
  cases oc with
  | response status hdr body =>
    simp only [forwardLine]
    split
    · exact ⟨_, _, _, rfl⟩
    · split
      · exact ⟨_, _, _, rfl⟩
      · exact ⟨_, _, _, rfl⟩
  | timeout => exact ⟨_, _, _, rfl⟩
  | connError e => exact ⟨_, _, _, rfl⟩
  | otherExc e => exact ⟨_, _, _, rfl⟩

/-- The POST issued by the forwarding stage: its body is the (stripped)
line and its session header is determined by the held token through
`attachHeader`, whatever the downstream outcome. -/
theorem forwardLine_req (st : Option String) (line : String) (rid : JVal)
    (oc : HttpOutcome) (req : Request) (out : List OutUnit)
    (newSt : Option String)
    (h : forwardLine st line rid oc = .called req out newSt) :
    req = ⟨line, attachHeader st⟩ := by
  cases oc <;> simp only [forwardLine] at h
  case response status hdr body =>
    split at h
    · injection h with h1 _ _; exact h1.symm
    · split at h
      · injection h with h1 _ _; exact h1.symm
      · injection h with h1 _ _; exact h1.symm
  case timeout => injection h with h1 _ _; exact h1.symm
  case connError e => injection h with h1 _ _; exact h1.symm
  case otherExc e => injection h with h1 _ _; exact h1.symm

/-- The session-update rule of source lines 100–103, extended to the
exception paths: a response header, when present, overwrites the token
whatever the status and body; otherwise (header absent, or the call
raised) the token is unchanged. -/
def sessionUpdate (st : Option String) : HttpOutcome → Option String
  | .response _ (some v) _ => some v
  | .response _ none _ => st
  | .timeout => st
  | .connError _ => st
  | .otherExc _ => st

/-- Session-token evolution of one forwarded iteration follows
`sessionUpdate`. -/
theorem forwardLine_newSt (st : Option String) (line : String) (rid : JVal)
    (oc : HttpOutcome) (req : Request) (out : List OutUnit)
    (newSt : Option String)
    (h : forwardLine st line rid oc = .called req out newSt) :
    newSt = sessionUpdate st oc := by
  cases oc <;> simp only [forwardLine, sessionUpdate] at h ⊢
  case response status hdr body =>
    have hs : ∀ r o, StepOut.called r o (match hdr with | some v => some v | none => st)
        = StepOut.called req out newSt →
        newSt = (match hdr with | some v => some v | none => st) := by
      intro r o hh
      injection hh with _ _ h3
      exact h3.symm
    cases hdr with
    | none =>
      split at h
      · exact hs _ _ h
      · split at h
        · exact hs _ _ h
        · exact hs _ _ h
    | some v =>
      split at h
      · exact hs _ _ h
      · split at h
        · exact hs _ _ h
        · exact hs _ _ h
  case timeout => injection h with _ _ h3; exact h3.symm
  case connError e => injection h with _ _ h3; exact h3.symm
  case otherExc e => injection h with _ _ h3; exact h3.symm

/-- Every synthesized error unit emitted by the forwarding stage carries the
correlation id that was extracted for the iteration. -/
theorem forwardLine_err_id (st : Option String) (line : String) (rid : JVal)
    (oc : HttpOutcome) (req : Request) (out : List OutUnit)
    (newSt : Option String)
    (h : forwardLine st line rid oc = .called req out newSt) :
    ∀ i c m, OutUnit.err i c m ∈ out → i = rid := by
  cases oc <;> simp only [forwardLine] at h
  case response status hdr body =>
    split at h
    · injection h with _ h2 _
      intro i c m hm
      rw [← h2] at hm
      simp only [List.mem_singleton] at hm
      injection hm with h4 _ _
    · split at h
      · injection h with _ h2 _
        intro i c m hm
        rw [← h2] at hm
        simp at hm
      · injection h with _ h2 _
        intro i c m hm
        rw [← h2] at hm
        simp only [List.mem_singleton] at hm
        exact absurd hm (by simp)
  case timeout =>
    injection h with _ h2 _
    intro i c m hm
    rw [← h2] at hm
    simp only [List.mem_singleton] at hm
    injection hm with h4 _ _
  case connError e =>
    injection h with _ h2 _
    intro i c m hm
    rw [← h2] at hm
    simp only [List.mem_singleton] at hm
    injection hm with h4 _ _
  case otherExc e =>
    injection h with _ h2 _
    intro i c m hm
    rw [← h2] at hm
    simp only [List.mem_singleton] at hm
    injection hm with h4 _ _

/-- An iteration that issued a POST did so after a successful id
extraction, and its result is that of the forwarding stage on the stripped
line. -/
theorem procLine_called (st : Option String) (raw : String) (oc : HttpOutcome)
    (req : Request) (out : List OutUnit) (newSt : Option String)
    (h : procLine st raw oc = .called req out newSt) :
    ∃ rid, extractRequestId (pyStrip raw) = some rid ∧
      forwardLine st (pyStrip raw) rid oc = .called req out newSt := by
  simp only [procLine] at h
  split at h
  · exact StepOut.noConfusion h
  · split at h
    · exact StepOut.noConfusion h
    · next rid heq => exact ⟨rid, heq, h⟩

/-! ### The claims -/

/-- C1: the claim says no per-iteration failure — including a line that is
valid JSON but not a JSON object — terminates the process, and that the
process exits cleanly with status 0 once input is exhausted.  The code
violates this: only `json.JSONDecodeError` is caught around the id
extraction, so a line decoding to a non-object reaches `.get` on a value
without that attribute and the resulting `AttributeError` kills the process
(uncaught exception, non-zero exit, no error unit, remaining input
unread).  This theorem evaluates the program at the failing input
`"[1, 2]"`: no request is issued, nothing is emitted, the process crashes,
and the following well-formed line is never processed. -/
theorem c1_nonobject_json_line_crashes_process :
    program ⟨some "key", none, none, none, none⟩
      [("[1, 2]\n", .response 200 none "ok"),
       ("\x7b\"id\": 1\x7d\n", .response 200 none "ok")]
      = ⟨[], [], false, true⟩ := rfl

/-- C2 (counterexample): the claim says the POST body equals the exact
original line as obtained from standard input; but the code strips the line
before forwarding, so a line with leading or trailing whitespace is
altered. -/
theorem c2_counterexample_body_differs_from_original_line :
    procLine none "  \x7b\"id\": 1\x7d  \n" (.response 200 none "r")
      = .called ⟨"\x7b\"id\": 1\x7d", none⟩ [.raw "r"] none
    ∧ "\x7b\"id\": 1\x7d" ≠ "  \x7b\"id\": 1\x7d  \n" :=
  ⟨rfl, by decide⟩

/-- C2 (amended): the body of the outbound POST equals the input line with
leading and trailing whitespace removed (`line.strip()`); the remaining
content is forwarded verbatim, never re-serialized. -/
theorem c2_forwarded_body_is_stripped_line (st : Option String) (raw : String)
    (oc : HttpOutcome) (req : Request) (out : List OutUnit)
    (newSt : Option String)
    (h : procLine st raw oc = .called req out newSt) :
    req.body = pyStrip raw := by
  obtain ⟨rid, _, hfwd⟩ := procLine_called st raw oc req out newSt h
  rw [forwardLine_req st (pyStrip raw) rid oc req out newSt hfwd]

/-- C2 (witness): the amended statement at a concrete input. -/
theorem c2_witness :
    Request.body ⟨"x", none⟩ = pyStrip "x\n" :=
  c2_forwarded_body_is_stripped_line none "x\n" (.response 200 none "b")
    ⟨"x", none⟩ [.raw "b"] none rfl

/-- C3 (counterexample): the claim says the token is overwritten by any
response `Mcp-Session-Id` header and that every subsequent request attaches
the currently held token.  When a response carries the header with an empty
value the held token becomes `""`, yet — by Python truthiness in
`if mcp_session_id:` — the next request attaches no header at all: in the
run below the second POST is issued while the held token is `some ""` but
carries no session header. -/
theorem c3_counterexample_empty_token_not_attached :
    (runLoop none [("x\n", .response 200 (some "") "b1"),
                   ("y\n", .response 200 none "b2")]).requests
      = [(none, ⟨"x", none⟩), (some "", ⟨"y", none⟩)]
    ∧ (none : Option String) ≠ some "" :=
  ⟨rfl, by decide⟩

/-- C3 (amended): the held token starts unset, is overwritten by the value
of the session-identifier header whenever a response carries one —
regardless of the response status or body, and unchanged when the call
raises instead — and every outbound request attaches the held token
whenever it is non-empty; while the token is unset, or set to the empty
string, no session header is attached. -/
theorem c3_session_token_discipline (st : Option String)
    (inputs : List (String × HttpOutcome)) :
    (∀ p ∈ (runLoop st inputs).requests, p.2.sessionHeader = attachHeader p.1)
    ∧ (∀ raw oc req out newSt, procLine st raw oc = .called req out newSt →
        newSt = sessionUpdate st oc) := by
  constructor
  · induction inputs generalizing st with
    | nil =>
      intro p hp
      simp [runLoop] at hp
    | cons hd rest ih =>
      intro p hp
      obtain ⟨raw, oc⟩ := hd
      cases hproc : procLine st raw oc with
      | skip =>
        simp only [runLoop, hproc] at hp
        exact ih st p hp
      | crashed =>
        simp only [runLoop, hproc] at hp
        simp at hp
      | called req out newSt =>
        simp only [runLoop, hproc] at hp
        simp only [List.mem_cons] at hp
        cases hp with
        | inl hpe =>
          subst hpe
          obtain ⟨rid, _, hfwd⟩ := procLine_called st raw oc req out newSt hproc
          rw [forwardLine_req st (pyStrip raw) rid oc req out newSt hfwd]
        | inr hpm =>
          exact ih newSt p hpm
  · intro raw oc req out newSt hproc
    obtain ⟨rid, _, hfwd⟩ := procLine_called st raw oc req out newSt hproc
    exact forwardLine_newSt st (pyStrip raw) rid oc req out newSt hfwd

/-- C3 (witness): the amended statement at a concrete run and a concrete
iteration. -/
theorem c3_witness :
    Request.sessionHeader ⟨"x", none⟩ = attachHeader none
    ∧ (some "tok" : Option String)
        = sessionUpdate none (.response 200 (some "tok") "b") :=
  ⟨(c3_session_token_discipline none
      [("x\n", HttpOutcome.response 200 (some "tok") "b")]).1
      (none, ⟨"x", none⟩) (by decide),
   (c3_session_token_discipline none []).2 "x\n"
      (HttpOutcome.response 200 (some "tok") "b") ⟨"x", none⟩ [.raw "b"]
      (some "tok") rfl⟩

/-- C4: for an iteration whose downstream call returns a success status
(below 400), the emitted output is the response body verbatim when the body
is non-empty, and nothing at all when the body is empty. -/
theorem c4_success_body_forwarded_verbatim (st : Option String) (raw : String)
    (status : Nat) (hdr : Option String) (body : String) (req : Request)
    (out : List OutUnit) (newSt : Option String)
    (hcall : procLine st raw (.response status hdr body) = .called req out newSt)
    (hstatus : status < 400) :
    out = if body = "" then [] else [OutUnit.raw body] := by
  obtain ⟨rid, _, hfwd⟩ := procLine_called _ _ _ _ _ _ hcall
  simp only [forwardLine] at hfwd
  split at hfwd
  · next hge => omega
  · split at hfwd
    · next hb =>
      injection hfwd with _ h2 _
      rw [← h2]
      simp [hb]
    · next hb =>
      injection hfwd with _ h2 _
      rw [← h2]
      simp [hb]

/-- C4 (witness): the theorem at a concrete iteration (status 200,
non-empty body) and the conclusion it yields there. -/
theorem c4_witness :
    ([OutUnit.raw "pong"] : List OutUnit)
      = if ("pong" : String) = "" then [] else [OutUnit.raw "pong"] :=
  c4_success_body_forwarded_verbatim none "x\n" 200 none "pong"
    ⟨"x", none⟩ [.raw "pong"] none rfl (by omega)

/-- C5: an iteration whose downstream call returns status 400 or greater
emits exactly one synthesized error unit carrying the extracted correlation
id, code -32000, and a message embedding the status and the body text; the
raw body is not emitted, and the loop continues with the rest of the
input. -/
theorem c5_error_status_synthesizes_error_unit (st : Option String)
    (raw : String) (status : Nat) (hdr : Option String) (body : String)
    (req : Request) (out : List OutUnit) (newSt : Option String)
    (hcall : procLine st raw (.response status hdr body) = .called req out newSt)
    (hstatus : 400 ≤ status) :
    ∃ rid, extractRequestId (pyStrip raw) = some rid
      ∧ out = [OutUnit.err rid (-32000)
          ("HTTP " ++ toString status ++ ": " ++ body)]
      ∧ OutUnit.raw body ∉ out
      ∧ ∀ rest, runLoop st ((raw, HttpOutcome.response status hdr body) :: rest)
          = ⟨(st, req) :: (runLoop newSt rest).requests,
             out ++ (runLoop newSt rest).outputs,
             (runLoop newSt rest).crashed, (runLoop newSt rest).finalSt⟩ := by
  obtain ⟨rid, hrid, hfwd⟩ := procLine_called _ _ _ _ _ _ hcall
  simp only [forwardLine] at hfwd
  refine ⟨rid, hrid, ?_, ?_, ?_⟩
  · split at hfwd
    · injection hfwd with _ h2 _
      exact h2.symm
    · next hge => omega
  · split at hfwd
    · injection hfwd with _ h2 _
      rw [← h2]
      simp
    · next hge => omega
  · intro rest
    simp [runLoop, hcall]

/-- C5 (witness): the theorem at a concrete iteration with status 404. -/
theorem c5_witness :
    ∃ rid, extractRequestId (pyStrip "\x7b\"id\": 9\x7d\n") = some rid
      ∧ ([OutUnit.err (JVal.num 9) (-32000) "HTTP 404: gone"] : List OutUnit)
          = [OutUnit.err rid (-32000) ("HTTP " ++ toString 404 ++ ": " ++ "gone")]
      ∧ OutUnit.raw "gone" ∉ ([OutUnit.err (JVal.num 9) (-32000) "HTTP 404: gone"] : List OutUnit)
      ∧ ∀ rest, runLoop none (("\x7b\"id\": 9\x7d\n", HttpOutcome.response 404 none "gone") :: rest)
          = ⟨(none, ⟨"\x7b\"id\": 9\x7d", none⟩) :: (runLoop none rest).requests,
             [OutUnit.err (JVal.num 9) (-32000) "HTTP 404: gone"] ++ (runLoop none rest).outputs,
             (runLoop none rest).crashed, (runLoop none rest).finalSt⟩ :=
  c5_error_status_synthesizes_error_unit none "\x7b\"id\": 9\x7d\n" 404 none "gone"
    ⟨"\x7b\"id\": 9\x7d", none⟩ [OutUnit.err (JVal.num 9) (-32000) "HTTP 404: gone"]
    none rfl (by omega)

/-- C6: when the downstream call itself raises, the iteration emits exactly
one synthesized error unit with the extracted correlation id and code
-32000 — message "Request timed out" on timeout, the fixed unreachable-server
hint on connection failure, and the failure description itself on any other
exception — the session token is unchanged, and the loop continues with the
rest of the input. -/
theorem c6_transport_failures_synthesize_error_units (st : Option String)
    (raw : String) :
    (∀ req out newSt, procLine st raw .timeout = .called req out newSt →
       ∃ rid, extractRequestId (pyStrip raw) = some rid
         ∧ out = [OutUnit.err rid (-32000) "Request timed out"] ∧ newSt = st)
    ∧ (∀ e req out newSt, procLine st raw (.connError e) = .called req out newSt →
       ∃ rid, extractRequestId (pyStrip raw) = some rid
         ∧ out = [OutUnit.err rid (-32000)
             "Connection error: Is the WhatsApp MCP server running?"] ∧ newSt = st)
    ∧ (∀ e req out newSt, procLine st raw (.otherExc e) = .called req out newSt →
       ∃ rid, extractRequestId (pyStrip raw) = some rid
         ∧ out = [OutUnit.err rid (-32000) e] ∧ newSt = st)
    ∧ (∀ oc req out newSt rest, procLine st raw oc = .called req out newSt →
       runLoop st ((raw, oc) :: rest)
         = ⟨(st, req) :: (runLoop newSt rest).requests,
            out ++ (runLoop newSt rest).outputs,
            (runLoop newSt rest).crashed, (runLoop newSt rest).finalSt⟩) := by
  refine ⟨?_, ?_, ?_, ?_⟩
  · intro req out newSt h
    obtain ⟨rid, hrid, hfwd⟩ := procLine_called _ _ _ _ _ _ h
    simp only [forwardLine] at hfwd
    injection hfwd with _ h2 h3
    exact ⟨rid, hrid, h2.symm, h3.symm⟩
  · intro e req out newSt h
    obtain ⟨rid, hrid, hfwd⟩ := procLine_called _ _ _ _ _ _ h
    simp only [forwardLine] at hfwd
    injection hfwd with _ h2 h3
    exact ⟨rid, hrid, h2.symm, h3.symm⟩
  · intro e req out newSt h
    obtain ⟨rid, hrid, hfwd⟩ := procLine_called _ _ _ _ _ _ h
    simp only [forwardLine] at hfwd
    injection hfwd with _ h2 h3
    exact ⟨rid, hrid, h2.symm, h3.symm⟩
  · intro oc req out newSt rest h
    simp [runLoop, h]

/-- C6 (witness): the timeout branch at a concrete iteration. -/
theorem c6_witness :
    ∃ rid, extractRequestId (pyStrip "\x7b\"id\": 4\x7d\n") = some rid
      ∧ ([OutUnit.err (JVal.num 4) (-32000) "Request timed out"] : List OutUnit)
          = [OutUnit.err rid (-32000) "Request timed out"]
      ∧ (none : Option String) = none :=
  (c6_transport_failures_synthesize_error_units none "\x7b\"id\": 4\x7d\n").1
    ⟨"\x7b\"id\": 4\x7d", none⟩ [OutUnit.err (JVal.num 4) (-32000) "Request timed out"]
    none rfl

/-- C7: for a (non-blank) input line that decodes as a JSON object, every
error unit emitted for that line carries the object id field as its
correlation id; for a line whose decoding fails, the iteration still
forwards the stripped line downstream (the failure is absorbed) and every
error unit emitted carries the null correlation id. -/
theorem c7_correlation_id_discipline (st : Option String) (raw : String)
    (oc : HttpOutcome) (hne : pyStrip raw ≠ "") :
    (∀ kvs req out newSt, jsonLoads (pyStrip raw) = some (JVal.obj kvs) →
       procLine st raw oc = .called req out newSt →
       ∀ i c m, OutUnit.err i c m ∈ out → i = pyDictGet kvs "id")
    ∧ (jsonLoads (pyStrip raw) = none →
       (∃ req out newSt, procLine st raw oc = .called req out newSt)
       ∧ ∀ req out newSt, procLine st raw oc = .called req out newSt →
           req.body = pyStrip raw
           ∧ ∀ i c m, OutUnit.err i c m ∈ out → i = JVal.null) := by
  constructor
  · intro kvs req out newSt hjson hcall i c m hm
    obtain ⟨rid, hrid, hfwd⟩ := procLine_called _ _ _ _ _ _ hcall
    rw [extractRequestId, hjson] at hrid
    injection hrid with hrid
    rw [← hrid] at hfwd
    exact forwardLine_err_id _ _ _ _ _ _ _ hfwd i c m hm
  · intro hjson
    constructor
    · have hid : extractRequestId (pyStrip raw) = some JVal.null := by
        rw [extractRequestId, hjson]
      simp only [procLine, if_neg hne, hid]
      exact forwardLine_called st (pyStrip raw) JVal.null oc
    · intro req out newSt hcall
      obtain ⟨rid, hrid, hfwd⟩ := procLine_called _ _ _ _ _ _ hcall
      rw [extractRequestId, hjson] at hrid
      injection hrid with hrid
      rw [← hrid] at hfwd
      exact ⟨by rw [forwardLine_req _ _ _ _ _ _ _ hfwd],
        fun i c m hm => forwardLine_err_id _ _ _ _ _ _ _ hfwd i c m hm⟩

/-- C7 (witness): both halves at concrete lines — an object line with id 5
whose 500-response yields an error unit carrying 5, and an undecodable line
that is still forwarded. -/
theorem c7_witness :
    ((JVal.num 5) = pyDictGet [("id", JVal.num 5)] "id")
    ∧ (∃ req out newSt,
        procLine none "not json\n" (HttpOutcome.response 200 none "b")
          = StepOut.called req out newSt) :=
  ⟨(c7_correlation_id_discipline none "\x7b\"id\": 5\x7d\n"
      (HttpOutcome.response 500 none "boom") (by decide)).1
      [("id", JVal.num 5)] ⟨"\x7b\"id\": 5\x7d", none⟩
      [OutUnit.err (JVal.num 5) (-32000) "HTTP 500: boom"] none rfl rfl
      (JVal.num 5) (-32000) "HTTP 500: boom" (by simp),
   ((c7_correlation_id_discipline none "not json\n"
      (HttpOutcome.response 200 none "b") (by decide)).2 rfl).1⟩

/-- C8 (counterexample): the claim says an absent credential yields one
error unit and a non-zero exit, and a present credential enters the loop.
Both halves fail at the edges: a credential present but equal to the empty
string still triggers the error path (Python truthiness), and with a
malformed timeout value the `int()` call crashes the process before the
credential check, so an absent credential then yields no unit at all. -/
theorem c8_counterexample_empty_key_and_timeout_precedence :
    startup ⟨some "", none, none, none, none⟩
      = .exitError (.err JVal.null (-32600) "MCP_API_KEY environment variable is required")
    ∧ startup ⟨none, none, none, some "abc", none⟩ = .crash
    ∧ program ⟨none, none, none, some "abc", none⟩ []
      = ⟨[], [], false, true⟩ :=
  ⟨rfl, rfl, rfl⟩

/-- C8 (amended): provided the timeout variable parses as an integer, a
missing *or empty* credential makes the process emit exactly one error unit
(null id, code -32600, message naming the required variable) and exit with
status 1 before reading any input; a present non-empty credential emits no
such unit and the loop is entered. -/
theorem c8_startup_credential_check (env : Env)
    (inputs : List (String × HttpOutcome)) (t : Int)
    (ht : pyInt (env.timeout.getD "30") = some t) :
    ((env.apiKey = none ∨ env.apiKey = some "") →
       program env inputs
         = ⟨[OutUnit.err JVal.null (-32600) "MCP_API_KEY environment variable is required"],
            [], false, false⟩)
    ∧ (∀ k, env.apiKey = some k → k ≠ "" →
       program env inputs
         = ⟨(runLoop none inputs).outputs, (runLoop none inputs).requests,
            !(runLoop none inputs).crashed, (runLoop none inputs).crashed⟩) := by
  constructor
  · intro hk
    cases hk with
    | inl h => simp [program, startup, ht, h]
    | inr h => simp [program, startup, ht, h]
  · intro k hk hne
    simp [program, startup, ht, hk, hne]

/-- C8 (witness): the amended statement at a concrete environment with the
credential missing. -/
theorem c8_witness :
    program ⟨none, none, none, none, none⟩ []
      = ⟨[OutUnit.err JVal.null (-32600) "MCP_API_KEY environment variable is required"],
         [], false, false⟩ :=
  (c8_startup_credential_check ⟨none, none, none, none, none⟩ [] 30 rfl).1
    (Or.inl rfl)

/-- C9: the claim says the log never contains the credential in plaintext.
The first conjunct confirms that nothing is written when debugging is
disabled, and the second that the startup URL line is built with the key
embedded in the endpoint; but the `ConnectionError` handler logs the
exception text verbatim, and that text (produced by the HTTP library)
embeds the request URL whose path contains the credential — the last two
conjuncts exhibit a logged line containing the key `sk-secret123` in
plaintext, violating the claim. -/
theorem c9_connection_error_log_leaks_credential :
    (∀ m, log false m = [])
    ∧ startup ⟨some "sk-secret123", none, none, none, some "1"⟩
        = .proceed 30 true "http://localhost:8080/mcp/sk-secret123"
    ∧ log true (connectionErrorLogMsg
        "HTTPConnectionPool(host=localhost, port=8080): Max retries exceeded with url: /mcp/sk-secret123 (connection refused)")
      = ["Connection error: HTTPConnectionPool(host=localhost, port=8080): Max retries exceeded with url: /mcp/sk-secret123 (connection refused)"]
    ∧ ∃ pre post,
        "Connection error: HTTPConnectionPool(host=localhost, port=8080): Max retries exceeded with url: /mcp/sk-secret123 (connection refused)"
          = pre ++ "sk-secret123" ++ post :=
  ⟨fun _ => rfl, rfl, rfl,
   "Connection error: HTTPConnectionPool(host=localhost, port=8080): Max retries exceeded with url: /mcp/",
   " (connection refused)", by decide⟩

/-- C10: a timeout environment value that does not parse as an integer
makes `int()` raise at startup, before the credential check: the process
dies of an uncaught exception having emitted no unit and read no input,
whatever the rest of the environment — in particular even when the
credential is also absent. -/
theorem c10_malformed_timeout_crashes_before_key_check (env : Env)
    (inputs : List (String × HttpOutcome))
    (h : pyInt (env.timeout.getD "30") = none) :
    program env inputs = ⟨[], [], false, true⟩ := by
  simp [program, startup, h]

/-- C10 (witness): the theorem at a concrete environment with a malformed
timeout and a missing credential, and a non-empty input stream that is
never read. -/
theorem c10_witness :
    program ⟨none, none, none, some "3.5", none⟩
      [("x\n", HttpOutcome.response 200 none "b")] = ⟨[], [], false, true⟩ :=
  c10_malformed_timeout_crashes_before_key_check
    ⟨none, none, none, some "3.5", none⟩
    [("x\n", HttpOutcome.response 200 none "b")] rfl

end McpProxy
